import Mathlib

/-!
Shallow embedding of the usage-telemetry store of this repository.

The embedding follows the Python sources:
  * `src/database.py`           — relational (sqlite) record-store adapter
  * `src/database/chroma_db.py` — document/metadata (chroma) record-store adapter
  * `src/chroma_db.py`          — older chroma adapter variant (query_logs, _format_results)
  * `src/query_builder.py`      — composable query builder
  * `src/generators.py`         — TokenUsageTracker: TTL cache + whole-cache invalidation
  * `src/utils/utils.py`        — validation helpers
  * the backoff-decorated error wrappers `handle_chroma_errors` / `handle_query_errors`

Machine conventions: Python ints are `Int`, Python floats (costs) are `Rat`,
epoch timestamps are `Nat` seconds (the relational adapter stores ISO text whose
lexicographic order agrees with chronological order; the chroma adapter stores the
epoch float — both are modelled by the same `Nat` field).  Python methods that
mutate `self` and may raise are modelled as `state → state × Option error`
(the returned state is the unchanged input when an error is raised); read-only
methods are `state → Except error result`.
-/

/-- Errors escaping the record-store adapters: `validation` stands for the
`ValueError`/`TypeError` raised by input validation, `storage` for backend
failures surviving the retry wrapper. -/
inductive DBError where
  | validation
  | storage
deriving DecidableEq, Repr

/-- Query-builder errors from `src/query_builder.py` (`InvalidDateError`,
`InvalidRangeError`, `InvalidFunctionError`); messages abstracted away. -/
inductive QueryErr where
  | invalidDate
  | invalidRange
  | invalidFunction
deriving DecidableEq, Repr

/-- One row of the relational `token_logs` table (`src/database.py`). -/
structure UsageRecord where
  id : Nat
  timestamp : Nat
  function_name : String
  prompt_tokens : Int
  completion_tokens : Int
  total_tokens : Int
  cost : Rat
  output : Option String
deriving DecidableEq, Repr

/-- One entry of the chroma `token_logs` collection: id, metadata fields and
the document payload (`src/database/chroma_db.py` `add_log`). -/
structure ChromaEntry where
  id : String
  timestamp : Nat
  function_name : String
  prompt_tokens : Int
  completion_tokens : Int
  total_tokens : Int
  cost : Rat
  document : String
deriving DecidableEq, Repr

/-- `validate_positive_integer` from `src/utils/utils.py`: `isinstance(value, int)
and value > 0` (the `isinstance` test is carried by the `Int` type). -/
def validate_positive_integer (value : Int) : Bool :=
  0 < value

/-- `validate_numeric_range` from `src/utils/utils.py`: both numbers and
`min_val <= max_val`. -/
def validate_numeric_range (min_val max_val : Rat) : Bool :=
  min_val ≤ max_val

namespace Database

/-- `Database._validate_parameters` (`src/database.py` lines 64–107).  The
`isinstance` tests on typed inputs are vacuous here; note the source checks a
length bound on `function_name` but never that it is non-empty. -/
def validate_parameters (function_name : String) (prompt_tokens completion_tokens total_tokens : Int)
    (cost : Rat) : Option DBError :=
  if prompt_tokens < 0 then some .validation
  else if completion_tokens < 0 then some .validation
  else if total_tokens < 0 then some .validation
  else if cost < 0 then some .validation
  else if 100 < function_name.length then some .validation
  else none

/-- `Database.add_log` (`src/database.py` lines 86–107): validate, then INSERT a
row; `id` is the autoincrement rowid (modelled by the table length), `timestamp`
is `datetime.now()` (the `now` argument). -/
def add_log (st : List UsageRecord) (now : Nat) (function_name : String)
    (prompt_tokens completion_tokens total_tokens : Int) (cost : Rat)
    (output : Option String) : List UsageRecord × Option DBError :=
  match validate_parameters function_name prompt_tokens completion_tokens total_tokens cost with
  | some e => (st, some e)
  | none =>
      (st ++ [⟨st.length, now, function_name, prompt_tokens, completion_tokens,
              total_tokens, cost, output⟩], none)

/-- Row order produced by `ORDER BY timestamp DESC`. -/
def tsDesc (a b : UsageRecord) : Prop :=
  b.timestamp ≤ a.timestamp

instance : DecidableRel tsDesc :=
  fun a b => Nat.decLe b.timestamp a.timestamp

instance : IsTotal UsageRecord tsDesc :=
  ⟨fun a b => Nat.le_total b.timestamp a.timestamp⟩

instance : IsTrans UsageRecord tsDesc :=
  ⟨fun _ _ _ hab hbc => le_trans hbc hab⟩

/-- `Database.get_logs` (`src/database.py` lines 109–131): reject a non-positive
limit, else `SELECT … ORDER BY timestamp DESC LIMIT ?`. -/
def get_logs (st : List UsageRecord) (limit : Int) : Except DBError (List UsageRecord) :=
  if limit < 1 then .error .validation
  else .ok ((List.insertionSort tsDesc st).take limit.toNat)

/-- `Database.get_logs_by_token_range` (`src/database.py` lines 185–212):
`min_tokens` must be a non-negative int, `max_tokens ≥ min_tokens`, `limit ≥ 1`;
then `WHERE total_tokens BETWEEN ? AND ? ORDER BY timestamp DESC LIMIT ?`. -/
def get_logs_by_token_range (st : List UsageRecord) (min_tokens max_tokens limit : Int) :
    Except DBError (List UsageRecord) :=
  if min_tokens < 0 then .error .validation
  else if max_tokens < min_tokens then .error .validation
  else if limit < 1 then .error .validation
  else .ok ((List.insertionSort tsDesc
      (st.filter (fun r => decide (min_tokens ≤ r.total_tokens) &&
                           decide (r.total_tokens ≤ max_tokens)))).take limit.toNat)

end Database

/-!  Query builder (`src/query_builder.py`).  Conditions are the dicts the
builder appends (`{"timestamp": {"$gte": v}}` …), modelled as a tagged type;
date-range bounds are rationals because `datetime.timestamp()` is a float and
the end-of-day bound carries microseconds. -/

/-- One accumulated filter condition of `LogQueryBuilder.conditions`. -/
inductive QCond where
  | tsGte (v : Rat)
  | tsLte (v : Rat)
  | fnEq (name : String)
  | tokGte (v : Int)
  | tokLte (v : Int)
  | costGte (v : Rat)
  | costLte (v : Rat)
deriving DecidableEq, Repr

/-- Truth of a single metadata condition on a stored chroma entry (the `$gte` /
`$lte` / equality operators of the collection `where` clause). -/
def evalCond (e : ChromaEntry) : QCond → Bool
  | .tsGte v => decide (v ≤ (e.timestamp : Rat))
  | .tsLte v => decide ((e.timestamp : Rat) ≤ v)
  | .fnEq name => e.function_name == name
  | .tokGte v => decide (v ≤ e.total_tokens)
  | .tokLte v => decide (e.total_tokens ≤ v)
  | .costGte v => decide (v ≤ e.cost)
  | .costLte v => decide (e.cost ≤ v)

/-- A calendar date parsed from `YYYY-MM-DD`. -/
structure PDate where
  year : Nat
  month : Nat
  day : Nat
deriving DecidableEq, Repr

def isLeapYear (y : Nat) : Bool :=
  (y % 4 == 0 && y % 100 != 0) || (y % 400 == 0)

def daysInMonth (y m : Nat) : Nat :=
  if m == 2 then (if isLeapYear y then 29 else 28)
  else if m == 4 || m == 6 || m == 9 || m == 11 then 30
  else 31

/-- Split a character list at the dash separators (`"a-b".split("-")` shape:
the empty input yields one empty field). -/
def splitDashes : List Char → List (List Char)
  | [] => [[]]
  | c :: rest =>
      let r := splitDashes rest
      if c = '-' then [] :: r
      else
        match r with
        | [] => [[c]]
        | g :: gs => (c :: g) :: gs

/-- A non-empty all-digit field read as a number. -/
def digitsToNat : List Char → Option Nat
  | [] => none
  | cs => go cs 0
where
  go : List Char → Nat → Option Nat
    | [], acc => some acc
    | c :: rest, acc =>
        if '0'.toNat ≤ c.toNat ∧ c.toNat ≤ '9'.toNat then
          go rest (acc * 10 + (c.toNat - '0'.toNat))
        else none

/-- `datetime.strptime(s, "%Y-%m-%d")`: three dash-separated numeric fields
forming a real calendar date; returns `none` exactly when the source raises
`ValueError`. -/
def parseDate (s : String) : Option PDate :=
  match splitDashes s.data with
  | [ys, ms, ds] =>
      match digitsToNat ys, digitsToNat ms, digitsToNat ds with
      | some y, some m, some d =>
          if 1 ≤ m ∧ m ≤ 12 ∧ 1 ≤ d ∧ d ≤ daysInMonth y m then some ⟨y, m, d⟩ else none
      | _, _, _ => none
  | _ => none

/-- Chronological strict order on dates (`start_dt > end_dt` comparison). -/
def dateLt (a b : PDate) : Prop :=
  a.year < b.year ∨ (a.year = b.year ∧ a.month < b.month) ∨
    (a.year = b.year ∧ a.month = b.month ∧ a.day < b.day)

instance : DecidableRel dateLt := fun a b => by
  unfold dateLt; infer_instance

/-- Civil date to days since the 1970-01-01 epoch (valid for years ≥ 1,
months 1–12); the standard era/year-of-era computation. -/
def daysFromCivil (y m d : Nat) : Int :=
  let ya := if m ≤ 2 then y - 1 else y
  let era := ya / 400
  let yoe := ya % 400
  let mp := (m + 9) % 12
  let doy := (153 * mp + 2) / 5 + d - 1
  let doe := yoe * 365 + yoe / 4 - yoe / 100 + doy
  (era * 146097 + doe : Int) - 719468

/-- `start_dt.replace(hour=0, …).timestamp()` for a parsed date (UTC model). -/
def dayStartTs (dt : PDate) : Rat :=
  (daysFromCivil dt.year dt.month dt.day : Rat) * 86400

/-- `end_dt.replace(hour=23, minute=59, second=59, microsecond=999999).timestamp()`. -/
def dayEndTs (dt : PDate) : Rat :=
  (daysFromCivil dt.year dt.month dt.day : Rat) * 86400 + 86399 + 999999 / 1000000

/-- `LogQueryBuilder` (`src/query_builder.py`): a single accumulating list of
conditions. -/
structure LogQueryBuilder where
  conditions : List QCond
deriving DecidableEq, Repr

namespace LogQueryBuilder

/-- `add_date_range` (`src/query_builder.py` lines 89–119): parse both dates as
`%Y-%m-%d` (any `ValueError`, including `start_dt > end_dt`, becomes
`InvalidDateError`), normalize to day boundaries, append the two timestamp
conditions. -/
def add_date_range (b : LogQueryBuilder) (start_date end_date : String) :
    LogQueryBuilder × Option QueryErr :=
  match parseDate start_date, parseDate end_date with
  | some s, some e =>
      if dateLt e s then (b, some .invalidDate)
      else (⟨b.conditions ++ [.tsGte (dayStartTs s), .tsLte (dayEndTs e)]⟩, none)
  | _, _ => (b, some .invalidDate)

/-- `add_function_filter` (`src/query_builder.py` lines 121–135): an empty name
is rejected with `InvalidFunctionError`. -/
def add_function_filter (b : LogQueryBuilder) (function_name : String) :
    LogQueryBuilder × Option QueryErr :=
  if function_name = "" then (b, some .invalidFunction)
  else (⟨b.conditions ++ [.fnEq function_name]⟩, none)

/-- `add_token_range` (`src/query_builder.py` lines 137–157). -/
def add_token_range (b : LogQueryBuilder) (min_tokens max_tokens : Int) :
    LogQueryBuilder × Option QueryErr :=
  if min_tokens < 0 ∨ max_tokens < 0 then (b, some .invalidRange)
  else if max_tokens < min_tokens then (b, some .invalidRange)
  else (⟨b.conditions ++ [.tokGte min_tokens, .tokLte max_tokens]⟩, none)

/-- `add_cost_range` (`src/query_builder.py` lines 159–179). -/
def add_cost_range (b : LogQueryBuilder) (min_cost max_cost : Rat) :
    LogQueryBuilder × Option QueryErr :=
  if min_cost < 0 ∨ max_cost < 0 then (b, some .invalidRange)
  else if max_cost < min_cost then (b, some .invalidRange)
  else (⟨b.conditions ++ [.costGte min_cost, .costLte max_cost]⟩, none)

/-- `has_filters` (`src/query_builder.py` lines 181–189): `bool(self.conditions)`. -/
def has_filters (b : LogQueryBuilder) : Bool :=
  !b.conditions.isEmpty

end LogQueryBuilder

/-- Truth of `not s.strip()`: the string has no non-whitespace character. -/
def stripIsEmpty (s : String) : Bool :=
  s.data.all (fun c => c.isWhitespace)

namespace ChromaDatabase

/-- `ChromaDatabase.add_log` (`src/database/chroma_db.py` lines 263–318):
sequential validation, then `collection.add` of one entry whose id is
`f"FUNCTIONNAME_TIMESTAMP"` and whose document is `output` when truthy and
`""` otherwise. -/
def add_log (st : List ChromaEntry) (now : Nat) (function_name : String)
    (prompt_tokens completion_tokens total_tokens : Int) (cost : Rat)
    (output : Option String) : List ChromaEntry × Option DBError :=
  if stripIsEmpty function_name then (st, some .validation)
  else if prompt_tokens < 0 then (st, some .validation)
  else if completion_tokens < 0 then (st, some .validation)
  else if total_tokens < 0 then (st, some .validation)
  else if cost < 0 then (st, some .validation)
  else
    (st ++ [⟨function_name ++ "_" ++ toString now, now, function_name, prompt_tokens,
            completion_tokens, total_tokens, cost, output.getD ""⟩], none)

/-- `ChromaDatabase.get_logs` (`src/database/chroma_db.py` lines 438–468):
reject `limit <= 0`, else `collection.get(limit=limit)` — the first `limit`
stored entries in insertion order, copied field-by-field with no reordering. -/
def get_logs (st : List ChromaEntry) (limit : Int) : Except DBError (List ChromaEntry) :=
  if limit ≤ 0 then .error .validation
  else .ok (st.take limit.toNat)

/-- `ChromaDatabase.get_logs_by_token_range` (`src/database/chroma_db.py` lines
381–411): `min_tokens` and `max_tokens` must pass `validate_positive_integer`
(strictly positive), the pair must pass `validate_numeric_range`, the limit must
be positive; then the `total_tokens ∈ $gte/$lte` conjunction is applied. -/
def get_logs_by_token_range (st : List ChromaEntry) (min_tokens max_tokens limit : Int) :
    Except DBError (List ChromaEntry) :=
  if ¬ (validate_positive_integer min_tokens && validate_positive_integer max_tokens) then
    .error .validation
  else if ¬ validate_numeric_range (min_tokens : Rat) (max_tokens : Rat) then
    .error .validation
  else if ¬ validate_positive_integer limit then
    .error .validation
  else
    .ok ((st.filter (fun e => decide (min_tokens ≤ e.total_tokens) &&
                              decide (e.total_tokens ≤ max_tokens))).take limit.toNat)

/-- `ChromaDatabase.query_logs` (`src/chroma_db.py` lines 434–465, matching the
no-filter branch of `src/database/chroma_db.py` lines 496–533): with no
accumulated filters it degrades to `get_logs(limit)`; otherwise it runs the
`$and` of the builder's conditions against the collection. -/
def query_logs (st : List ChromaEntry) (b : LogQueryBuilder) (limit : Int) :
    Except DBError (List ChromaEntry) :=
  if b.has_filters then
    .ok ((st.filter (fun e => b.conditions.all (fun c => evalCond e c))).take limit.toNat)
  else get_logs st limit

end ChromaDatabase

/-!  Raw chroma query results and `_format_results`
(`src/database/chroma_db.py` lines 535–558 and `src/chroma_db.py` lines
467–490).  A results dict may lack keys, its per-entry metadata dicts may lack
fields, and its lists may be shorter than `ids`; the embedding keeps all of
that, with Python's `KeyError` / `IndexError` as explicit outcomes. -/

/-- A Python runtime error escaping `_format_results`. -/
inductive PyRunErr where
  | keyError
  | indexError
deriving DecidableEq, Repr

/-- One metadata dict of a chroma results structure; every field may be absent
(`metadata.get(field, default)` supplies the default). -/
structure MetaDict where
  timestamp : Option Nat
  function_name : Option String
  prompt_tokens : Option Int
  completion_tokens : Option Int
  total_tokens : Option Int
  cost : Option Rat
deriving DecidableEq, Repr

/-- The results dict returned by `collection.get`: each top-level key may be
missing. -/
structure QueryResults where
  ids : Option (List String)
  metadatas : Option (List MetaDict)
  documents : Option (List String)
deriving DecidableEq, Repr

/-- One formatted log dict produced by `_format_results`. -/
structure FormattedLog where
  id : String
  function_name : String
  prompt_tokens : Int
  completion_tokens : Int
  total_tokens : Int
  cost : Rat
  timestamp : Nat
  output : String
deriving DecidableEq, Repr

/-- The Python `for` loop: build one output dict per iteration, propagating the
first raised exception. -/
def mapExcept (f : β → Except ε γ) : List β → Except ε (List γ)
  | [] => .ok []
  | x :: xs =>
      match f x with
      | .error e => .error e
      | .ok y =>
          match mapExcept f xs with
          | .error e => .error e
          | .ok ys => .ok (y :: ys)

namespace ChromaDatabase

/-- Loop body of `_format_results` at index `i`: `results['metadatas'][i]` may
raise `IndexError`; each metadata field falls back to its default
(`timestamp` 0, `function_name` empty, token counts 0, cost 0.0); the output is
`results['documents'][i] if results.get('documents') else ''`, indexing only
when the documents list is present and non-empty. -/
def format_one (ids : List String) (mds : List MetaDict) (docs : Option (List String))
    (i : Nat) : Except PyRunErr FormattedLog :=
  match mds[i]? with
  | none => .error .indexError
  | some md =>
      match (match docs with
             | none => Except.ok ""
             | some ds =>
                 if ds.isEmpty then Except.ok ""
                 else match ds[i]? with
                      | none => Except.error PyRunErr.indexError
                      | some d => Except.ok d) with
      | .error e => .error e
      | .ok out =>
          .ok ⟨ids.getD i "", md.function_name.getD "", md.prompt_tokens.getD 0,
               md.completion_tokens.getD 0, md.total_tokens.getD 0, md.cost.getD 0,
               md.timestamp.getD 0, out⟩

/-- `_format_results`: an absent or empty `ids` list short-circuits to `[]`
before anything else is read; otherwise the loop runs over `range(len(ids))`
(an absent `metadatas` key then raises `KeyError` on the first iteration). -/
def format_results (res : QueryResults) : Except PyRunErr (List FormattedLog) :=
  match res.ids with
  | none => .ok []
  | some ids =>
      if ids.isEmpty then .ok []
      else
        match res.metadatas with
        | none => .error .keyError
        | some mds => mapExcept (format_one ids mds res.documents) (List.range ids.length)

end ChromaDatabase

/-!  The backoff-decorated error wrappers.
`handle_chroma_errors` (`src/database/chroma_db.py` lines 16–34) applies
`backoff.on_exception(backoff.expo, (chromadb.errors.ChromaError, Exception),
max_tries=3, max_time=30)`; `handle_query_errors` (`src/query_builder.py` lines
12–30) does the same with `(QueryBuilderError, Exception)` after converting any
unexpected exception into a `QueryBuilderError`.  An operation is a function
from the attempt index to its outcome; the model counts attempts and records the
base `expo` delay sequence (2^k before the k-th retry; the library's default
jitter and the `max_time` cutoff are abstracted away). -/

/-- A raised Python exception as seen by the retry wrappers. -/
inductive PyErr where
  | validation
  | chromaError
  | queryBuilderError
deriving DecidableEq, Repr

/-- Every modelled error is an instance of Python's `Exception`. -/
def isExceptionInstance : PyErr → Bool :=
  fun _ => true

/-- Membership in the exception tuple `(chromadb.errors.ChromaError, Exception)`. -/
def chromaRetrySpec (e : PyErr) : Bool :=
  (e == .chromaError) || isExceptionInstance e

/-- Membership in the exception tuple `(QueryBuilderError, Exception)`. -/
def queryRetrySpec (e : PyErr) : Bool :=
  (e == .queryBuilderError) || isExceptionInstance e

instance {ε α : Type} [DecidableEq ε] [DecidableEq α] : DecidableEq (Except ε α)
  | .ok a, .ok b =>
      if h : a = b then .isTrue (by rw [h]) else .isFalse (fun he => by cases he; exact h rfl)
  | .ok _, .error _ => .isFalse (fun he => by cases he)
  | .error _, .ok _ => .isFalse (fun he => by cases he)
  | .error a, .error b =>
      if h : a = b then .isTrue (by rw [h]) else .isFalse (fun he => by cases he; exact h rfl)

/-- Outcome of a wrapped call: attempts actually made, base backoff delays slept
between attempts, and the final result. -/
structure RetryOutcome (α : Type) where
  attempts : Nat
  delays : List Nat
  result : Except PyErr α
deriving Repr, DecidableEq

/-- `backoff.on_exception`: run the operation; on an exception matching the
spec, sleep `2^attempt` and try again while tries remain, else re-raise. -/
def backoffGo (spec : PyErr → Bool) (op : Nat → Except PyErr α) :
    Nat → Nat → RetryOutcome α
  | attempt, 0 => ⟨attempt, [], op attempt⟩
  | attempt, remaining + 1 =>
      match op attempt with
      | .ok a => ⟨attempt + 1, [], .ok a⟩
      | .error e =>
          if spec e && remaining != 0 then
            let r := backoffGo spec op (attempt + 1) remaining
            ⟨r.attempts, 2 ^ attempt :: r.delays, r.result⟩
          else ⟨attempt + 1, [], .error e⟩

/-- `handle_chroma_errors` with `max_tries=3`. -/
def handle_chroma_errors (op : Nat → Except PyErr α) : RetryOutcome α :=
  backoffGo chromaRetrySpec op 0 3

/-- The inner wrapper of `handle_query_errors`: a `QueryBuilderError` is
re-raised as is, any other exception is re-raised as `QueryBuilderError`. -/
def queryErrorWrap (op : Nat → Except PyErr α) : Nat → Except PyErr α :=
  fun i =>
    match op i with
    | .ok a => .ok a
    | .error .queryBuilderError => .error .queryBuilderError
    | .error _ => .error .queryBuilderError

/-- `handle_query_errors` with `max_tries=3`. -/
def handle_query_errors (op : Nat → Except PyErr α) : RetryOutcome α :=
  backoffGo queryRetrySpec (queryErrorWrap op) 0 3

/-!  `TokenUsageTracker` (`src/generators.py` lines 21–97): a TTL read cache in
front of the chroma store, invalidated wholesale by every successful write.
The cache dict is an association list with unique keys; `time.time()` is the
explicit `now : Nat` argument.  The `backendCalls` field instruments the model
with the call counter the spec's cache-coherence property observes on a test
double; it counts executed backend reads and is not part of the source state. -/

/-- `_cache_ttl = 300` seconds. -/
def cacheTTL : Nat := 300

/-- `_get_cached_result` (`src/generators.py` lines 54–62): a present entry is a
hit while `now - timestamp < ttl`, otherwise it is deleted and the call is a
miss.  Returns the result and the possibly-updated cache. -/
def cacheGet (c : List (String × Nat × α)) (key : String) (now : Nat) :
    Option α × List (String × Nat × α) :=
  match c.find? (fun e => e.1 == key) with
  | none => (none, c)
  | some (_, ts, res) =>
      if now - ts < cacheTTL then (some res, c)
      else (none, c.eraseP (fun e => e.1 == key))

/-- `_cache_result` (`src/generators.py` lines 64–67): dict assignment of
`(time.time(), result)` under `key`. -/
def cachePut (c : List (String × Nat × α)) (key : String) (now : Nat) (res : α) :
    List (String × Nat × α) :=
  (key, now, res) :: c.eraseP (fun e => e.1 == key)

/-- `_get_cache_key("get_logs", limit=limit)`: `"get_logs" + ":" + "limit:" + str(limit)`. -/
def cacheKeyGetLogs (limit : Int) : String :=
  "get_logs:limit:" ++ toString limit

/-- The `TokenUsageTracker` singleton's state: its cache, the underlying chroma
store, and the instrumentation counter of executed backend reads. -/
structure Tracker where
  cache : List (String × Nat × List ChromaEntry)
  db : List ChromaEntry
  backendCalls : Nat
deriving DecidableEq, Repr

namespace Tracker

/-- `TokenUsageTracker.add_log` (`src/generators.py` lines 69–82): delegate to
`db.add_log`, then clear the whole cache; a raising write leaves the cache
untouched.  (The `handle_chroma_errors` retries around the deterministic model
return its single-attempt outcome.) -/
def add_log (t : Tracker) (now : Nat) (function_name : String)
    (prompt_tokens completion_tokens total_tokens : Int) (cost : Rat)
    (output : Option String) : Tracker × Option DBError :=
  match ChromaDatabase.add_log t.db now function_name prompt_tokens completion_tokens
      total_tokens cost output with
  | (db', some e) => ({ t with db := db' }, some e)
  | (db', none) => (⟨[], db', t.backendCalls⟩, none)

/-- `TokenUsageTracker.get_logs` (`src/generators.py` lines 84–97): serve from
the cache when fresh; otherwise read the backend, cache the result with the
current timestamp and return it. -/
def get_logs (t : Tracker) (now : Nat) (limit : Int) :
    Except DBError (List ChromaEntry × Tracker) :=
  match cacheGet t.cache (cacheKeyGetLogs limit) now with
  | (some res, c') => .ok (res, { t with cache := c' })
  | (none, c') =>
      match ChromaDatabase.get_logs t.db limit with
      | .error e => .error e
      | .ok res =>
          .ok (res, ⟨cachePut c' (cacheKeyGetLogs limit) now res, t.db, t.backendCalls + 1⟩)

end Tracker

/-!  Resource Pool. -/

/-- `PoolTimeoutError` (spec §7). -/
inductive PoolError where
  | poolTimeout
deriving DecidableEq, Repr

/-- Modelled from the spec: no resource-pool implementation exists under `src/`
(spec §4.2 is the only description).  A pool is its configured maximum together
with the counts of available and outstanding handles; handles are pre-created at
initialization (fixed pool size). -/
structure Pool where
  maxSize : Nat
  available : Nat
  outstanding : Nat
deriving DecidableEq, Repr

namespace Pool

/-- Modelled from the spec: pool initialization pre-creates `n` handles. -/
def init (n : Nat) : Pool := ⟨n, n, 0⟩

/-- Modelled from the spec: `acquire(timeout)` hands out a handle when one is
available; with none available and no concurrent `release` arriving before the
timeout, it fails with `PoolTimeoutError` (blocking time abstracted away). -/
def acquire (p : Pool) : Pool × Except PoolError Unit :=
  if 0 < p.available then
    ({ p with available := p.available - 1, outstanding := p.outstanding + 1 }, .ok ())
  else (p, .error .poolTimeout)

/-- Modelled from the spec: `release(handle)` returns a handle to the pool; if
the pool is already full the handle is closed instead of leaked. -/
def release (p : Pool) : Pool :=
  if 0 < p.outstanding then
    if p.available < p.maxSize then
      { p with available := p.available + 1, outstanding := p.outstanding - 1 }
    else { p with outstanding := p.outstanding - 1 }
  else p

/-- An event of a pool history. -/
inductive Op where
  | acq
  | rel
deriving DecidableEq, Repr

/-- One pool transition. -/
def step (p : Pool) : Op → Pool
  | .acq => (p.acquire).1
  | .rel => p.release

/-- A whole pool history. -/
def run (p : Pool) (ops : List Op) : Pool :=
  ops.foldl step p

/-- Spec §4.2 invariant: handles outstanding plus handles available never
exceed the configured maximum. -/
def inv (p : Pool) : Prop :=
  p.outstanding + p.available ≤ p.maxSize

instance (p : Pool) : Decidable p.inv := by
  unfold inv; infer_instance

end Pool

/-!  Shared material for the statements: running both adapters on one record
set, the descending-timestamp order on chroma results, and concrete sample
data used by witnesses and counterexamples. -/

/-- The chroma entry holding the same usage record (same fields, id and
document assembled the way `ChromaDatabase.add_log` assembles them); used to
present one record set to both adapters. -/
def recToEntry (r : UsageRecord) : ChromaEntry :=
  ⟨r.function_name ++ "_" ++ toString r.timestamp, r.timestamp, r.function_name,
   r.prompt_tokens, r.completion_tokens, r.total_tokens, r.cost, r.output.getD ""⟩

/-- Timestamp-descending order on chroma results (the order the spec's `list`
contract prescribes). -/
def entDesc (a b : ChromaEntry) : Prop :=
  b.timestamp ≤ a.timestamp

instance : DecidableRel entDesc :=
  fun a b => Nat.decLe b.timestamp a.timestamp

/-- A sample relational row. -/
def sampleRec : UsageRecord :=
  ⟨0, 5, "generate_quiz", 10, 20, 30, 1 / 100, none⟩

/-- A sample chroma entry written early (epoch second 0). -/
def entOld : ChromaEntry :=
  ⟨"a_0", 0, "a", 1, 1, 2, 0, ""⟩

/-- A sample chroma entry written later (epoch second 5). -/
def entNew : ChromaEntry :=
  ⟨"b_5", 5, "b", 1, 1, 2, 0, ""⟩

/-!  Helper lemmas shared by several claims. -/

/-- The loop succeeds iff every iteration does, producing one output per input. -/
theorem mapExcept_ok {β γ ε : Type} (f : β → Except ε γ) (g : β → γ) :
    ∀ l : List β, (∀ x ∈ l, f x = .ok (g x)) → mapExcept f l = .ok (l.map g)
  | [], _ => rfl
  | x :: xs, h => by
      have hx := h x (List.mem_cons_self x xs)
      have hxs := mapExcept_ok f g xs (fun y hy => h y (List.mem_cons_of_mem x hy))
      simp [mapExcept, hx, hxs]

/-- With pairwise-distinct keys, deleting a key's entry leaves no entry for that
key behind. -/
theorem find?_eraseP_key_none {α : Type} (key : String) :
    ∀ c : List (String × Nat × α), (c.map (fun e => e.1)).Nodup →
      (c.eraseP (fun e => e.1 == key)).find? (fun e => e.1 == key) = none
  | [], _ => rfl
  | a :: rest, h => by
      have h' : (a.1 :: rest.map (fun e => e.1)).Nodup := by simpa using h
      have hhead : a.1 ∉ rest.map (fun e => e.1) := (List.nodup_cons.mp h').1
      have htail : (rest.map (fun e => e.1)).Nodup := (List.nodup_cons.mp h').2
      by_cases hp : a.1 = key
      · rw [List.eraseP_cons_of_pos (by simpa using hp)]
        rw [List.find?_eq_none]
        intro x hx hbeq
        have hxk : x.1 = key := by simpa using hbeq
        exact hhead (by
          rw [hp, ← hxk]
          exact List.mem_map_of_mem (fun e => e.1) hx)
      · rw [List.eraseP_cons_of_neg (by simpa using hp)]
        rw [List.find?_cons_of_neg _ (by simpa using hp)]
        exact find?_eraseP_key_none key rest htail

/-- One pool transition preserves the bound on handle counts. -/
theorem Pool.inv_step (p : Pool) (op : Pool.Op) (h : p.inv) : (p.step op).inv := by
  cases op
  · unfold Pool.step Pool.acquire
    by_cases ha : 0 < p.available
    · rw [if_pos ha]
      unfold Pool.inv at *
      simp only
      omega
    · rw [if_neg ha]
      exact h
  · unfold Pool.step Pool.release
    by_cases ho : 0 < p.outstanding
    · rw [if_pos ho]
      by_cases hm : p.available < p.maxSize
      · rw [if_pos hm]
        unfold Pool.inv at *
        simp only
        omega
      · rw [if_neg hm]
        unfold Pool.inv at *
        simp only
        omega
    · rw [if_neg ho]
      exact h

/-- Any pool history preserves the bound on handle counts. -/
theorem Pool.inv_run : ∀ (ops : List Pool.Op) (p : Pool), p.inv → (p.run ops).inv
  | [], _, h => h
  | op :: ops, p, h => Pool.inv_run ops (p.step op) (Pool.inv_step p op h)

/-- A burst of `k` acquires drains `k` available handles when enough exist. -/
theorem Pool.run_replicate_acq :
    ∀ (k : Nat) (m a o : Nat), k ≤ a →
      Pool.run ⟨m, a, o⟩ (List.replicate k .acq) = ⟨m, a - k, o + k⟩
  | 0, m, a, o, _ => by simp [Pool.run]
  | k + 1, m, a, o, h => by
      have ha : 0 < a := by omega
      have hstep : Pool.step ⟨m, a, o⟩ .acq = ⟨m, a - 1, o + 1⟩ := by
        unfold Pool.step Pool.acquire
        rw [if_pos (by simpa using ha)]
      have : Pool.run ⟨m, a, o⟩ (List.replicate (k + 1) .acq) =
          Pool.run ⟨m, a - 1, o + 1⟩ (List.replicate k .acq) := by
        rw [List.replicate_succ]
        show Pool.run (Pool.step ⟨m, a, o⟩ .acq) (List.replicate k .acq) = _
        rw [hstep]
      rw [this, Pool.run_replicate_acq k m (a - 1) (o + 1) (by omega)]
      congr 1 <;> omega

/-- C8: the pool, modelled from spec §4.2 (no pool exists under `src/`),
keeps outstanding + available within the configured maximum over every history;
from a fresh pool of size `n`, `n` concurrent acquires succeed and exhaust it,
the `(n+1)`-st acquire finds no handle and fails with `PoolTimeoutError` at its
timeout, and after one release the next acquire succeeds. -/
theorem C8_pool_bound (n : Nat) (ops : List Pool.Op) (hn : 0 < n) :
    Pool.inv (Pool.run (Pool.init n) ops) ∧
    Pool.run (Pool.init n) (List.replicate n .acq) = ⟨n, 0, n⟩ ∧
    ((Pool.run (Pool.init n) (List.replicate n .acq)).acquire).2 = .error .poolTimeout ∧
    (((Pool.run (Pool.init n) (List.replicate n .acq)).release).acquire).2 = .ok () := by
  have hfull : Pool.run (Pool.init n) (List.replicate n .acq) = ⟨n, 0, n⟩ := by
    have := Pool.run_replicate_acq n n n 0 (le_refl n)
    simpa [Pool.init] using this
  refine ⟨Pool.inv_run ops (Pool.init n) (by simp [Pool.init, Pool.inv]), hfull, ?_, ?_⟩
  · rw [hfull]
    unfold Pool.acquire
    rw [if_neg (by simp)]
  · rw [hfull]
    have hrel : Pool.release ⟨n, 0, n⟩ = ⟨n, 1, n - 1⟩ := by
      unfold Pool.release
      rw [if_pos (by simpa using hn), if_pos (by simpa using hn)]
    rw [hrel]
    unfold Pool.acquire
    rw [if_pos (by simp)]

/-- C8 witness: the pool facts at size 2 with a concrete history. -/
theorem C8_pool_bound_witness :
    Pool.inv (Pool.run (Pool.init 2) [.acq, .rel, .acq]) ∧
    Pool.run (Pool.init 2) (List.replicate 2 .acq) = ⟨2, 0, 2⟩ ∧
    ((Pool.run (Pool.init 2) (List.replicate 2 .acq)).acquire).2 = .error .poolTimeout ∧
    (((Pool.run (Pool.init 2) (List.replicate 2 .acq)).release).acquire).2 = .ok () :=
  C8_pool_bound 2 [.acq, .rel, .acq] (by decide)

/-- C9: a builder on which no predicate was ever added degrades `query_logs` to
the plain unfiltered `get_logs` with the same limit. -/
theorem C9_query_logs_no_filter (st : List ChromaEntry) (b : LogQueryBuilder) (lim : Int)
    (h : b.has_filters = false) :
    ChromaDatabase.query_logs st b lim = ChromaDatabase.get_logs st lim := by
  unfold ChromaDatabase.query_logs
  rw [h]
  simp

/-- C9 witness: the fresh builder against a one-entry store. -/
theorem C9_query_logs_no_filter_witness :
    LogQueryBuilder.has_filters ⟨[]⟩ = false ∧
    ChromaDatabase.query_logs [entOld] ⟨[]⟩ 5 = ChromaDatabase.get_logs [entOld] 5 :=
  ⟨rfl, C9_query_logs_no_filter [entOld] ⟨[]⟩ 5 rfl⟩

/-- C7: `add_token_range` and `add_cost_range` fail with `InvalidRangeError`
whenever a bound is negative or min exceeds max, and `add_date_range` fails with
`InvalidDateError` whenever a date does not parse or the start date is after the
end date; every such failure is raised at predicate-add time and returns the
builder with its accumulated conditions unchanged. -/
theorem C7_builder_rejection (b : LogQueryBuilder) (mnT mxT : Int) (mnC mxC : Rat)
    (s e : String) :
    (mnT < 0 ∨ mxT < 0 ∨ mxT < mnT →
      LogQueryBuilder.add_token_range b mnT mxT = (b, some .invalidRange)) ∧
    (mnC < 0 ∨ mxC < 0 ∨ mxC < mnC →
      LogQueryBuilder.add_cost_range b mnC mxC = (b, some .invalidRange)) ∧
    (parseDate s = none ∨ parseDate e = none ∨
        (∃ ds de, parseDate s = some ds ∧ parseDate e = some de ∧ dateLt de ds) →
      LogQueryBuilder.add_date_range b s e = (b, some .invalidDate)) := by
  refine ⟨?_, ?_, ?_⟩
  · intro h
    unfold LogQueryBuilder.add_token_range
    rcases h with h | h | h
    · rw [if_pos (Or.inl h)]
    · rw [if_pos (Or.inr h)]
    · by_cases h0 : mnT < 0 ∨ mxT < 0
      · rw [if_pos h0]
      · rw [if_neg h0, if_pos h]
  · intro h
    unfold LogQueryBuilder.add_cost_range
    rcases h with h | h | h
    · rw [if_pos (Or.inl h)]
    · rw [if_pos (Or.inr h)]
    · by_cases h0 : mnC < 0 ∨ mxC < 0
      · rw [if_pos h0]
      · rw [if_neg h0, if_pos h]
  · intro h
    unfold LogQueryBuilder.add_date_range
    rcases h with h | h | ⟨ds, de, hs, he, hlt⟩
    · rw [h]
    · rw [h]
      cases parseDate s <;> rfl
    · rw [hs, he]
      simp only
      rw [if_pos hlt]

/-- C7 witness: the spec's concrete rejections on a fresh builder. -/
theorem C7_builder_rejection_witness :
    LogQueryBuilder.add_token_range ⟨[]⟩ 10 5 = (⟨[]⟩, some .invalidRange) ∧
    LogQueryBuilder.add_cost_range ⟨[]⟩ 2 1 = (⟨[]⟩, some .invalidRange) ∧
    LogQueryBuilder.add_date_range ⟨[]⟩ "2025-02-30" "2025-03-01" = (⟨[]⟩, some .invalidDate) :=
  ⟨(C7_builder_rejection ⟨[]⟩ 10 5 2 1 "2025-02-30" "2025-03-01").1
      (Or.inr (Or.inr (by decide))),
   (C7_builder_rejection ⟨[]⟩ 10 5 2 1 "2025-02-30" "2025-03-01").2.1
      (Or.inr (Or.inr (by norm_num))),
   (C7_builder_rejection ⟨[]⟩ 10 5 2 1 "2025-02-30" "2025-03-01").2.2
      (Or.inl (by decide))⟩

/-- C1 counterexample: an operation that always raises a validation error is
invoked three times by the chroma retry wrapper — the exception tuple
`(ChromaError, Exception)` matches every failure, so a validation failure is
retried rather than propagated on the first attempt. -/
theorem C1_counterexample :
    (handle_chroma_errors (fun _ => (Except.error PyErr.validation : Except PyErr Unit))).attempts
        = 3 ∧
    (handle_chroma_errors (fun _ => (Except.error PyErr.validation : Except PyErr Unit))).attempts
        ≠ 1 := by
  decide

/-- C1 (amended): the retry wrappers retry every failure — validation failures
included — up to the fixed attempt count of 3 with exponentially increasing
base delay (2^k before the k-th retry), then propagate the last error; a
success returns at once with no retry, and a failure followed by a success
consumes exactly one retry. -/
theorem C1_retry_discipline {α : Type} (op : Nat → Except PyErr α) (efam : Nat → PyErr)
    (a : α) :
    (op 0 = .ok a → handle_chroma_errors op = ⟨1, [], .ok a⟩) ∧
    ((∀ i, op i = .error (efam i)) →
      handle_chroma_errors op = ⟨3, [1, 2], .error (efam 2)⟩) ∧
    (op 0 = .error (efam 0) → op 1 = .ok a → handle_chroma_errors op = ⟨2, [1], .ok a⟩) ∧
    ((∀ i, op i = .error (efam i)) →
      handle_query_errors op = ⟨3, [1, 2], .error .queryBuilderError⟩) := by
  have hspec : ∀ e, chromaRetrySpec e = true := by
    intro e
    simp [chromaRetrySpec, isExceptionInstance]
  have hspecq : ∀ e, queryRetrySpec e = true := by
    intro e
    simp [queryRetrySpec, isExceptionInstance]
  refine ⟨?_, ?_, ?_, ?_⟩
  · intro h
    show backoffGo chromaRetrySpec op 0 (2 + 1) = _
    rw [backoffGo, h]
  · intro h
    have l2 : backoffGo chromaRetrySpec op 2 1 = ⟨3, [], .error (efam 2)⟩ := by
      show backoffGo chromaRetrySpec op 2 (0 + 1) = _
      rw [backoffGo, h 2]
      simp
    have l1 : backoffGo chromaRetrySpec op 1 2 = ⟨3, [2], .error (efam 2)⟩ := by
      show backoffGo chromaRetrySpec op 1 (1 + 1) = _
      rw [backoffGo, h 1]
      simp [hspec, l2]
    show backoffGo chromaRetrySpec op 0 (2 + 1) = _
    rw [backoffGo, h 0]
    simp [hspec, l1]
  · intro h0 h1
    have l1 : backoffGo chromaRetrySpec op 1 2 = ⟨2, [], .ok a⟩ := by
      show backoffGo chromaRetrySpec op 1 (1 + 1) = _
      rw [backoffGo, h1]
    show backoffGo chromaRetrySpec op 0 (2 + 1) = _
    rw [backoffGo, h0]
    simp [hspec, l1]
  · intro h
    have hw : ∀ i, queryErrorWrap op i = .error .queryBuilderError := by
      intro i
      unfold queryErrorWrap
      rw [h i]
      cases efam i <;> rfl
    have l2 : backoffGo queryRetrySpec (queryErrorWrap op) 2 1 =
        ⟨3, [], .error .queryBuilderError⟩ := by
      show backoffGo queryRetrySpec (queryErrorWrap op) 2 (0 + 1) = _
      rw [backoffGo, hw 2]
      simp
    have l1 : backoffGo queryRetrySpec (queryErrorWrap op) 1 2 =
        ⟨3, [2], .error .queryBuilderError⟩ := by
      show backoffGo queryRetrySpec (queryErrorWrap op) 1 (1 + 1) = _
      rw [backoffGo, hw 1]
      simp [hspecq, l2]
    show backoffGo queryRetrySpec (queryErrorWrap op) 0 (2 + 1) = _
    rw [backoffGo, hw 0]
    simp [hspecq, l1]

/-- C1 witness: the amended discipline at a transient backend failure that
persists through all three attempts. -/
theorem C1_retry_discipline_witness :
    handle_chroma_errors (fun _ => (Except.error PyErr.chromaError : Except PyErr Unit)) =
      ⟨3, [1, 2], .error .chromaError⟩ :=
  (C1_retry_discipline (fun _ => (Except.error PyErr.chromaError : Except PyErr Unit))
      (fun _ => PyErr.chromaError) ()).2.1 (fun _ => rfl)

/-- C2 counterexample: the relational adapter accepts a record whose
`function_name` is the empty string — `_validate_parameters` never checks
non-emptiness — and persists it, so this create neither fails with a validation
error nor leaves the store unchanged. -/
theorem C2_counterexample :
    Database.add_log [] 0 "" 10 20 30 1 none =
      ([⟨0, 0, "", 10, 20, 30, 1, none⟩], none) := by
  decide

/-- C2 (amended): a create whose `prompt_tokens`, `completion_tokens`,
`total_tokens` or `cost` is negative fails with a validation error in both
adapters before reaching the backend, with the store unchanged; a
whitespace-only (in particular empty) `function_name` is likewise rejected by
the document adapter — but not by the relational adapter. -/
theorem C2_validation_rejection (st : List UsageRecord) (cst : List ChromaEntry) (now : Nat)
    (fn : String) (pt ct tt : Int) (cost : Rat) (out : Option String) :
    (pt < 0 ∨ ct < 0 ∨ tt < 0 ∨ cost < 0 →
      Database.add_log st now fn pt ct tt cost out = (st, some .validation)) ∧
    (stripIsEmpty fn = true ∨ pt < 0 ∨ ct < 0 ∨ tt < 0 ∨ cost < 0 →
      ChromaDatabase.add_log cst now fn pt ct tt cost out = (cst, some .validation)) := by
  constructor
  · intro h
    have hv : Database.validate_parameters fn pt ct tt cost = some .validation := by
      unfold Database.validate_parameters
      split_ifs with h1 h2 h3 h4 h5
      any_goals rfl
      rcases h with h | h | h | h
      exacts [absurd h h1, absurd h h2, absurd h h3, absurd h h4]
    unfold Database.add_log
    rw [hv]
  · intro h
    unfold ChromaDatabase.add_log
    split_ifs with h1 h2 h3 h4 h5
    any_goals rfl
    rcases h with h | h | h | h | h
    exacts [absurd h (by simpa using h1), absurd h h2, absurd h h3, absurd h h4, absurd h h5]

/-- C2 witness: `prompt_tokens = -1` and `cost = -0.01` are rejected by both
adapters with no record persisted, and `function_name` empty is rejected by the
document adapter. -/
theorem C2_validation_rejection_witness :
    Database.add_log [] 0 "f" (-1) 1 1 0 none = ([], some .validation) ∧
    ChromaDatabase.add_log [] 0 "f" (-1) 1 1 0 none = ([], some .validation) ∧
    Database.add_log [] 0 "f" 10 20 30 (-1 / 100) none = ([], some .validation) ∧
    ChromaDatabase.add_log [] 0 "f" 10 20 30 (-1 / 100) none = ([], some .validation) ∧
    ChromaDatabase.add_log [] 0 "" 10 20 30 (1 / 100) none = ([], some .validation) :=
  ⟨(C2_validation_rejection [] [] 0 "f" (-1) 1 1 0 none).1 (Or.inl (by decide)),
   (C2_validation_rejection [] [] 0 "f" (-1) 1 1 0 none).2 (Or.inr (Or.inl (by decide))),
   (C2_validation_rejection [] [] 0 "f" 10 20 30 (-1 / 100) none).1
      (Or.inr (Or.inr (Or.inr (by norm_num)))),
   (C2_validation_rejection [] [] 0 "f" 10 20 30 (-1 / 100) none).2
      (Or.inr (Or.inr (Or.inr (Or.inr (by norm_num))))),
   (C2_validation_rejection [] [] 0 "" 10 20 30 (1 / 100) none).2 (Or.inl (by decide))⟩

/-- C3 counterexample: the same token-range input `[0, 5]` is accepted by the
relational adapter (non-negative bounds suffice) but rejected by the document
adapter (whose `validate_positive_integer` demands a strictly positive
`min_tokens`), so the two adapters do not accept and reject the same inputs. -/
theorem C3_counterexample :
    Database.get_logs_by_token_range [] 0 5 10 = .ok [] ∧
    ChromaDatabase.get_logs_by_token_range [] 0 5 10 = .error .validation := by
  decide

/-- C3 (amended): on inputs both adapters accept — strictly positive
`min_tokens ≤ max_tokens` and a positive limit — and with the limit covering the
record set, the two adapters applied to the same records return the same result
set: exactly the records whose `total_tokens` lies in the range (the relational
adapter as a timestamp-sorted permutation of it, the document adapter in
insertion order); but acceptance differs at `min_tokens = 0`. -/
theorem C3_token_range_equivalence (recs : List UsageRecord) (mn mx lim : Int)
    (hmn : 0 < mn) (hle : mn ≤ mx) (hlim : 0 < lim) (hcap : recs.length ≤ lim.toNat) :
    ∃ out, Database.get_logs_by_token_range recs mn mx lim = .ok out ∧
      out.Perm (recs.filter (fun r => decide (mn ≤ r.total_tokens) &&
                                      decide (r.total_tokens ≤ mx))) ∧
      ChromaDatabase.get_logs_by_token_range (recs.map recToEntry) mn mx lim =
        .ok ((recs.filter (fun r => decide (mn ≤ r.total_tokens) &&
                                    decide (r.total_tokens ≤ mx))).map recToEntry) := by
  have hmx : 0 < mx := lt_of_lt_of_le hmn hle
  have hfl : (recs.filter (fun r => decide (mn ≤ r.total_tokens) &&
      decide (r.total_tokens ≤ mx))).length ≤ lim.toNat :=
    le_trans (List.length_filter_le _ _) hcap
  refine ⟨(List.insertionSort Database.tsDesc
      (recs.filter (fun r => decide (mn ≤ r.total_tokens) &&
        decide (r.total_tokens ≤ mx)))).take lim.toNat, ?_, ?_, ?_⟩
  · unfold Database.get_logs_by_token_range
    rw [if_neg (by omega), if_neg (by omega), if_neg (by omega)]
  · have hlen : (List.insertionSort Database.tsDesc
        (recs.filter (fun r => decide (mn ≤ r.total_tokens) &&
          decide (r.total_tokens ≤ mx)))).length ≤ lim.toNat := by
      rw [(List.perm_insertionSort Database.tsDesc _).length_eq]
      exact hfl
    rw [List.take_of_length_le hlen]
    exact List.perm_insertionSort _ _
  · unfold ChromaDatabase.get_logs_by_token_range
    rw [if_neg (not_not_intro (by simp [validate_positive_integer, hmn, hmx]))]
    rw [if_neg (not_not_intro (by
      simp only [validate_numeric_range, decide_eq_true_eq]
      exact_mod_cast hle))]
    rw [if_neg (not_not_intro (by simp [validate_positive_integer, hlim]))]
    rw [List.filter_map]
    have hcomp : ((fun e : ChromaEntry => decide (mn ≤ e.total_tokens) &&
        decide (e.total_tokens ≤ mx)) ∘ recToEntry) =
        (fun r : UsageRecord => decide (mn ≤ r.total_tokens) &&
          decide (r.total_tokens ≤ mx)) := rfl
    rw [hcomp]
    rw [List.take_of_length_le (by
      rw [List.length_map]
      exact hfl)]

/-- C3 witness: both adapters on the one-record set, token range `[1, 100]`. -/
theorem C3_token_range_equivalence_witness :
    ∃ out, Database.get_logs_by_token_range [sampleRec] 1 100 10 = .ok out ∧
      out.Perm ([sampleRec].filter (fun r => decide ((1 : Int) ≤ r.total_tokens) &&
                                             decide (r.total_tokens ≤ (100 : Int)))) ∧
      ChromaDatabase.get_logs_by_token_range ([sampleRec].map recToEntry) 1 100 10 =
        .ok (([sampleRec].filter (fun r => decide ((1 : Int) ≤ r.total_tokens) &&
                                           decide (r.total_tokens ≤ (100 : Int)))).map recToEntry) :=
  C3_token_range_equivalence [sampleRec] 1 100 10 (by decide) (by decide) (by decide) (by decide)

/-- C4 counterexample: the document adapter's `get_logs` performs
`collection.get(limit=...)` with no ordering clause, so a store whose two
entries were inserted oldest-first comes back oldest-first — not in
timestamp-descending order. -/
theorem C4_counterexample :
    ChromaDatabase.get_logs [entOld, entNew] 10 = .ok [entOld, entNew] ∧
    entOld.timestamp < entNew.timestamp ∧
    ¬ List.Sorted entDesc [entOld, entNew] := by
  refine ⟨by decide, by decide, ?_⟩
  intro h
  have := List.rel_of_sorted_cons h entNew (List.mem_singleton_self entNew)
  exact absurd this (by decide)

/-- C4 (amended): for a positive integer limit both adapters return at most
`limit` records, the relational adapter in timestamp-descending order, the
document adapter as the first `limit` stored entries in insertion order without
re-sorting; a non-positive limit fails with a validation error in both. -/
theorem C4_get_logs_contract (st : List UsageRecord) (cst : List ChromaEntry) (lim : Int) :
    (1 ≤ lim → ∃ out, Database.get_logs st lim = .ok out ∧
        out.length ≤ lim.toNat ∧ List.Sorted Database.tsDesc out) ∧
    (lim < 1 → Database.get_logs st lim = .error .validation) ∧
    (1 ≤ lim → ChromaDatabase.get_logs cst lim = .ok (cst.take lim.toNat) ∧
        (cst.take lim.toNat).length ≤ lim.toNat) ∧
    (lim < 1 → ChromaDatabase.get_logs cst lim = .error .validation) := by
  refine ⟨?_, ?_, ?_, ?_⟩
  · intro h
    refine ⟨(List.insertionSort Database.tsDesc st).take lim.toNat, ?_, ?_, ?_⟩
    · unfold Database.get_logs
      rw [if_neg (by omega)]
    · rw [List.length_take]
      exact min_le_left _ _
    · exact (List.sorted_insertionSort Database.tsDesc st).sublist
        (List.take_sublist lim.toNat _)
  · intro h
    unfold Database.get_logs
    rw [if_pos h]
  · intro h
    constructor
    · unfold ChromaDatabase.get_logs
      rw [if_neg (by omega)]
    · rw [List.length_take]
      exact min_le_left _ _
  · intro h
    unfold ChromaDatabase.get_logs
    rw [if_pos (by omega)]

/-- C4 witness: the contract at limit 10 and at the invalid limit 0 on concrete
stores. -/
theorem C4_get_logs_contract_witness :
    (∃ out, Database.get_logs [sampleRec] 10 = .ok out ∧
        out.length ≤ (10 : Int).toNat ∧ List.Sorted Database.tsDesc out) ∧
    Database.get_logs [sampleRec] 0 = .error .validation ∧
    ChromaDatabase.get_logs [entOld, entNew] 10 = .ok ([entOld, entNew].take (10 : Int).toNat) ∧
    ChromaDatabase.get_logs [entOld, entNew] 0 = .error .validation :=
  ⟨(C4_get_logs_contract [sampleRec] [entOld, entNew] 10).1 (by decide),
   (C4_get_logs_contract [sampleRec] [entOld, entNew] 0).2.1 (by decide),
   ((C4_get_logs_contract [sampleRec] [entOld, entNew] 10).2.2.1 (by decide)).1,
   (C4_get_logs_contract [sampleRec] [entOld, entNew] 0).2.2.2 (by decide)⟩

/-- C10 counterexample: a results structure with one id but no `metadatas` key
makes `_format_results` raise (`results['metadatas']` is a `KeyError`), so the
formatting is not total over all results structures. -/
theorem C10_counterexample :
    ChromaDatabase.format_results ⟨some ["a"], none, none⟩ = .error .keyError := by
  rfl

/-- C10 (amended): `_format_results` returns `[]` whenever the `ids` field is
missing or empty; when the metadata list covers every id index and the document
list is absent, empty, or covers every id index, it returns one output record
per id without raising, substituting the defaults for missing metadata fields;
on structures whose lists fall short of `ids` it raises a KeyError/IndexError
instead. -/
theorem C10_format_results_contract (res : QueryResults) :
    (res.ids = none → ChromaDatabase.format_results res = .ok []) ∧
    (res.ids = some [] → ChromaDatabase.format_results res = .ok []) ∧
    (∀ ids mds, res.ids = some ids → res.metadatas = some mds →
      ids.length ≤ mds.length →
      (res.documents = none ∨ res.documents = some [] ∨
        (∃ ds, res.documents = some ds ∧ ids.length ≤ ds.length)) →
      ChromaDatabase.format_results res =
        .ok ((List.range ids.length).map (fun i =>
          (⟨ids.getD i "",
            (mds.getD i ⟨none, none, none, none, none, none⟩).function_name.getD "",
            (mds.getD i ⟨none, none, none, none, none, none⟩).prompt_tokens.getD 0,
            (mds.getD i ⟨none, none, none, none, none, none⟩).completion_tokens.getD 0,
            (mds.getD i ⟨none, none, none, none, none, none⟩).total_tokens.getD 0,
            (mds.getD i ⟨none, none, none, none, none, none⟩).cost.getD 0,
            (mds.getD i ⟨none, none, none, none, none, none⟩).timestamp.getD 0,
            match res.documents with
            | none => ""
            | some ds => if ds.isEmpty then "" else ds.getD i ""⟩ : FormattedLog)))) := by
  refine ⟨?_, ?_, ?_⟩
  · intro h
    unfold ChromaDatabase.format_results
    rw [h]
  · intro h
    unfold ChromaDatabase.format_results
    rw [h]
    rfl
  · intro ids mds hids hmds hlen hdocs
    unfold ChromaDatabase.format_results
    rw [hids, hmds]
    dsimp only
    by_cases hnil : ids.isEmpty
    · rw [if_pos hnil]
      rw [List.isEmpty_iff] at hnil
      subst hnil
      rfl
    · rw [if_neg hnil]
      have hone : ∀ i ∈ List.range ids.length,
          ChromaDatabase.format_one ids mds res.documents i =
            .ok (⟨ids.getD i "",
                  (mds.getD i ⟨none, none, none, none, none, none⟩).function_name.getD "",
                  (mds.getD i ⟨none, none, none, none, none, none⟩).prompt_tokens.getD 0,
                  (mds.getD i ⟨none, none, none, none, none, none⟩).completion_tokens.getD 0,
                  (mds.getD i ⟨none, none, none, none, none, none⟩).total_tokens.getD 0,
                  (mds.getD i ⟨none, none, none, none, none, none⟩).cost.getD 0,
                  (mds.getD i ⟨none, none, none, none, none, none⟩).timestamp.getD 0,
                  match res.documents with
                  | none => ""
                  | some ds => if ds.isEmpty then "" else ds.getD i ""⟩ : FormattedLog) := by
        intro i hi
        have hi' : i < ids.length := List.mem_range.mp hi
        have himd : i < mds.length := lt_of_lt_of_le hi' hlen
        have hmdi : mds[i]? = some (mds.getD i ⟨none, none, none, none, none, none⟩) := by
          rw [List.getElem?_eq_getElem himd]
          rw [List.getD_eq_getElem _ _ himd]
        unfold ChromaDatabase.format_one
        rw [hmdi]
        rcases hdocs with hd | hd | ⟨ds, hd, hdl⟩
        · rw [hd]
        · rw [hd]
          rfl
        · rw [hd]
          have hdi : i < ds.length := lt_of_lt_of_le hi' hdl
          have hne : ds.isEmpty = false := by
            rcases ds with _ | ⟨d, ds'⟩
            · simp at hdi
            · rfl
          dsimp only
          rw [hne]
          simp only [Bool.false_eq_true, if_false]
          rw [List.getElem?_eq_getElem hdi, List.getD_eq_getElem _ _ hdi]
      exact mapExcept_ok _ _ (List.range ids.length) hone

/-- C10 witness: a one-id result whose metadata dict is entirely empty and
whose documents key is absent formats to exactly one record carrying every
default — timestamp 0, function name empty, token counts 0, cost 0, output
empty — and an absent ids field formats to the empty list. -/
theorem C10_format_results_contract_witness :
    ChromaDatabase.format_results
        ⟨some ["a"], some [⟨none, none, none, none, none, none⟩], none⟩ =
      .ok [⟨"a", "", 0, 0, 0, 0, 0, ""⟩] ∧
    ChromaDatabase.format_results ⟨none, some [], some ["x"]⟩ = .ok [] :=
  ⟨(C10_format_results_contract
        ⟨some ["a"], some [⟨none, none, none, none, none, none⟩], none⟩).2.2
      ["a"] [⟨none, none, none, none, none, none⟩] rfl rfl (by decide) (Or.inl rfl),
   (C10_format_results_contract ⟨none, some [], some ["x"]⟩).1 rfl⟩

/-- C5: for a cache whose keys are pairwise distinct, a get on a present entry
is a hit returning exactly the stored result when `now - insertionTime < 300`
and leaves the cache unchanged; once the age reaches the TTL the get is a miss
and the entry is evicted (no entry for the key remains); a get on an absent key
is a miss that leaves the cache unchanged. -/
theorem C5_cache_ttl {α : Type} (c : List (String × Nat × α)) (key : String) (now : Nat)
    (hnodup : (c.map (fun e => e.1)).Nodup) :
    (∀ k ts res, c.find? (fun e => e.1 == key) = some (k, ts, res) →
      (now - ts < 300 → cacheGet c key now = (some res, c)) ∧
      (¬ now - ts < 300 →
        (cacheGet c key now).1 = none ∧
        (cacheGet c key now).2.find? (fun e => e.1 == key) = none)) ∧
    (c.find? (fun e => e.1 == key) = none → cacheGet c key now = (none, c)) := by
  constructor
  · intro k ts res hfind
    constructor
    · intro hfresh
      unfold cacheGet
      rw [hfind]
      dsimp only
      rw [if_pos (by simpa [cacheTTL] using hfresh)]
    · intro hstale
      unfold cacheGet
      rw [hfind]
      dsimp only
      rw [if_neg (by simpa [cacheTTL] using hstale)]
      exact ⟨rfl, find?_eraseP_key_none key c hnodup⟩
  · intro hnone
    unfold cacheGet
    rw [hnone]

/-- C5 witness: a concrete one-entry cache inserted at second 10 — hit at
second 100, miss with eviction at second 400, and a miss on an absent key. -/
theorem C5_cache_ttl_witness :
    cacheGet [("k", 10, 7)] "k" 100 = (some 7, [("k", (10 : Nat), (7 : Nat))]) ∧
    (cacheGet [("k", 10, 7)] "k" 400).1 = none ∧
    (cacheGet [("k", 10, 7)] "k" 400).2.find? (fun e => e.1 == "k") = none ∧
    cacheGet [("k", 10, 7)] "other" 100 = (none, [("k", (10 : Nat), (7 : Nat))]) :=
  ⟨((C5_cache_ttl [("k", 10, 7)] "k" 100 (by decide)).1 "k" 10 7 (by decide)).1 (by decide),
   (((C5_cache_ttl [("k", 10, 7)] "k" 400 (by decide)).1 "k" 10 7 (by decide)).2 (by decide)).1,
   (((C5_cache_ttl [("k", 10, 7)] "k" 400 (by decide)).1 "k" 10 7 (by decide)).2 (by decide)).2,
   (C5_cache_ttl [("k", 10, 7)] "other" 100 (by decide)).2 (by decide)⟩

/-- C6: every successful write through the tracker clears the whole cache
before returning; the query following a successful write cannot be served from
a pre-write cache entry — it performs a backend read against the post-write
store (the caller observes its own write) and the instrumentation counter
increments; and two consecutive identical queries within the TTL with no
intervening write return identical results with no second backend read (same
counter, same state). -/
theorem C6_cache_invalidation (t : Tracker) (now nowq now1 now2 : Nat) (lim : Int)
    (fn : String) (pt ct tt : Int) (cost : Rat) (out : Option String) :
    (∀ t', Tracker.add_log t now fn pt ct tt cost out = (t', none) → t'.cache = []) ∧
    (∀ t', Tracker.add_log t now fn pt ct tt cost out = (t', none) → 1 ≤ lim →
      Tracker.get_logs t' nowq lim =
        .ok (t'.db.take lim.toNat,
             ⟨[(cacheKeyGetLogs lim, nowq, t'.db.take lim.toNat)], t'.db,
              t'.backendCalls + 1⟩)) ∧
    (t.cache = [] → 1 ≤ lim →
      Tracker.get_logs t now1 lim =
        .ok (t.db.take lim.toNat,
             ⟨[(cacheKeyGetLogs lim, now1, t.db.take lim.toNat)], t.db,
              t.backendCalls + 1⟩) ∧
      (now2 - now1 < 300 →
        Tracker.get_logs ⟨[(cacheKeyGetLogs lim, now1, t.db.take lim.toNat)], t.db,
            t.backendCalls + 1⟩ now2 lim =
          .ok (t.db.take lim.toNat,
               ⟨[(cacheKeyGetLogs lim, now1, t.db.take lim.toNat)], t.db,
                t.backendCalls + 1⟩))) := by
  have hempty : ∀ (tr : Tracker), tr.cache = [] → 1 ≤ lim → ∀ (nw : Nat),
      Tracker.get_logs tr nw lim =
        .ok (tr.db.take lim.toNat,
             ⟨[(cacheKeyGetLogs lim, nw, tr.db.take lim.toNat)], tr.db,
              tr.backendCalls + 1⟩) := by
    intro tr hc hlim nw
    unfold Tracker.get_logs
    rw [hc]
    show (match (none, ([] : List (String × Nat × List ChromaEntry))) with
          | (some res, c') => Except.ok (res, { tr with cache := c' })
          | (none, c') =>
              match ChromaDatabase.get_logs tr.db lim with
              | .error e => .error e
              | .ok res =>
                  .ok (res, ⟨cachePut c' (cacheKeyGetLogs lim) nw res, tr.db,
                             tr.backendCalls + 1⟩)) = _
    dsimp only
    unfold ChromaDatabase.get_logs
    rw [if_neg (by omega)]
    rfl
  refine ⟨?_, ?_, ?_⟩
  · intro t' h
    unfold Tracker.add_log at h
    split at h
    · simp at h
    · rw [← (Prod.mk.injEq _ _ _ _).mp h |>.1]
  · intro t' h hlim
    have hc : t'.cache = [] := by
      unfold Tracker.add_log at h
      split at h
      · simp at h
      · rw [← (Prod.mk.injEq _ _ _ _).mp h |>.1]
    exact hempty t' hc hlim nowq
  · intro hc hlim
    refine ⟨hempty t hc hlim now1, ?_⟩
    intro hfresh
    unfold Tracker.get_logs
    have hfind : [(cacheKeyGetLogs lim, now1, t.db.take lim.toNat)].find?
        (fun e => e.1 == cacheKeyGetLogs lim) =
        some (cacheKeyGetLogs lim, now1, t.db.take lim.toNat) :=
      List.find?_cons_of_pos _ (by simp)
    show (match cacheGet [(cacheKeyGetLogs lim, now1, t.db.take lim.toNat)]
            (cacheKeyGetLogs lim) now2 with
          | (some res, c') =>
              Except.ok (res,
                (⟨c', t.db, t.backendCalls + 1⟩ : Tracker))
          | (none, c') =>
              match ChromaDatabase.get_logs t.db lim with
              | .error e => .error e
              | .ok res =>
                  .ok (res, ⟨cachePut c' (cacheKeyGetLogs lim) now2 res, t.db,
                             t.backendCalls + 1 + 1⟩)) = _
    unfold cacheGet
    rw [hfind]
    dsimp only
    rw [if_pos (by simpa [cacheTTL] using hfresh)]

/-- C6 witness: a concrete write into an empty tracker clears the cache, the
following query reads the post-write store through the backend, and on a
fresh-cache tracker two identical queries 100 seconds apart share one backend
read. -/
theorem C6_cache_invalidation_witness :
    (Tracker.add_log ⟨[], [], 0⟩ 5 "a" 1 1 2 0 none).1.cache = [] ∧
    Tracker.get_logs (Tracker.add_log ⟨[], [], 0⟩ 5 "a" 1 1 2 0 none).1 6 10 =
      .ok ((Tracker.add_log ⟨[], [], 0⟩ 5 "a" 1 1 2 0 none).1.db.take (10 : Int).toNat,
           ⟨[(cacheKeyGetLogs 10, 6,
              (Tracker.add_log ⟨[], [], 0⟩ 5 "a" 1 1 2 0 none).1.db.take (10 : Int).toNat)],
            (Tracker.add_log ⟨[], [], 0⟩ 5 "a" 1 1 2 0 none).1.db,
            (Tracker.add_log ⟨[], [], 0⟩ 5 "a" 1 1 2 0 none).1.backendCalls + 1⟩) ∧
    Tracker.get_logs ⟨[], [], 0⟩ 100 10 =
      .ok (([] : List ChromaEntry).take (10 : Int).toNat,
           ⟨[(cacheKeyGetLogs 10, 100, ([] : List ChromaEntry).take (10 : Int).toNat)], [],
            0 + 1⟩) ∧
    Tracker.get_logs ⟨[(cacheKeyGetLogs 10, 100, ([] : List ChromaEntry).take (10 : Int).toNat)],
        [], 0 + 1⟩ 200 10 =
      .ok (([] : List ChromaEntry).take (10 : Int).toNat,
           ⟨[(cacheKeyGetLogs 10, 100, ([] : List ChromaEntry).take (10 : Int).toNat)], [],
            0 + 1⟩) :=
  ⟨(C6_cache_invalidation ⟨[], [], 0⟩ 5 6 100 200 10 "a" 1 1 2 0 none).1 _ rfl,
   (C6_cache_invalidation ⟨[], [], 0⟩ 5 6 100 200 10 "a" 1 1 2 0 none).2.1 _ rfl (by decide),
   ((C6_cache_invalidation ⟨[], [], 0⟩ 5 6 100 200 10 "a" 1 1 2 0 none).2.2 rfl (by decide)).1,
   ((C6_cache_invalidation ⟨[], [], 0⟩ 5 6 100 200 10 "a" 1 1 2 0 none).2.2 rfl
      (by decide)).2 (by decide)⟩
